import Mathlib

/-!
Shallow embedding of the ebs-bootstrap utility (src/ebs.go): the volume
locator `volumeFromID`, the attach-and-confirm retry loop `attachVolume`,
the filesystem initializer `ensureVolumeInited` and the mount reconciler
`ensureVolumeMounted`.  External effects (the EC2 API, `os.Stat`, shelled-out
commands) are modelled as oracles supplied in an environment record; the
functions return, besides the Go `error` result, a trace of the effectful
calls they issued, so that properties about call counts and sleep durations
can be stated.
-/

namespace EbsBootstrap

/-- Go `error` values as they occur in ebs.go: `new` is `errors.New` /
`fmt.Errorf`, `wrap` is `github.com/pkg/errors.Wrap` applied to a non-nil
error, and `provider` tags an error surfaced by the AWS SDK (`awserr.Error`
or any other error returned by an `ec2.EC2` call). -/
inductive GoError where
  | new : String → GoError
  | wrap : String → GoError → GoError
  | provider : String → GoError
deriving DecidableEq, Repr

/-- Whether an error is a provider (AWS SDK) error, as opposed to one this
program constructed itself. -/
def GoError.isProvider : GoError → Bool
  | .provider _ => true
  | _ => false

/-- `github.com/pkg/errors.Wrap` on a nullable error: `Wrap(nil, msg)`
returns `nil`, otherwise it wraps. -/
def wrapOpt (msg : String) (e : Option GoError) : Option GoError :=
  e.map (GoError.wrap msg)

/-- One element of `ec2.Volume.Attachments` (the fields ebs.go reads). -/
structure Attachment where
  instanceId : String
  device : String
  state : String
deriving DecidableEq, Repr

/-- The fields of `ec2.Volume` that ebs.go reads. -/
structure Volume where
  volumeId : String
  attachments : List Attachment
deriving DecidableEq, Repr

/-- The attachment state string `ec2.VolumeAttachmentStateAttached`. -/
def volumeAttachmentStateAttached : String := "attached"

/-- ebs.go lines 18-47, `volumeFromID`: the `DescribeVolumes` call filtered
by volume-id and availability-zone is the oracle `describeResult`.  A
transport error is passed through unmodified (both the `awserr.Error` and
the plain branch return the error as-is); an empty result list becomes the
NotFound error `cannot find volume with volume-id: <id>`; otherwise the
first volume is returned. -/
def volumeFromID (describeResult : Except GoError (List Volume))
    (volumeID : String) : Except GoError Volume :=
  match describeResult with
  | .error e => .error e
  | .ok vols =>
    match vols with
    | [] => .error (GoError.new ("cannot find volume with volume-id: " ++ volumeID))
    | v :: _ => .ok v

/-- Environment of the attach retry loop: for attempt number `i`,
`attachResult i` is the outcome of `svc.AttachVolume` if it is called on
that attempt (`none` = accepted), `describeResult i` the outcome of the
confirmation `svc.DescribeVolumes` poll, and `statResult i` the outcome of
`os.Stat(blockDevice)` if it is reached (`none` = device present). -/
structure AttachEnv where
  attachResult : Nat → Option GoError
  describeResult : Nat → Except GoError (List Volume)
  statResult : Nat → Option GoError

/-- Backoff durations, in seconds, of `jpillora/backoff` with the
parameters set at ebs.go lines 65-70: Min 5s, Max 100s, Factor 2, no
jitter.  The k-th call of `Duration()` (k = 0,1,...) returns
`min(5 * 2^k, 100)` seconds. -/
def backoffDuration (k : Nat) : Nat :=
  min (5 * 2 ^ k) 100

/-- Result of running the retry loop of `attachVolume` (ebs.go lines
76-122): whether `attachSucceeded` was set, the final `lastError`, the
attempt numbers at which an `AttachVolume` request was issued, the number
of iterations executed, the number of confirmation polls issued, the
sleep durations (seconds, in order), and every value assigned to
`lastError`, in order. -/
structure LoopOut where
  succeeded : Bool
  lastError : Option GoError
  attachCalls : List Nat
  attempts : Nat
  describes : Nat
  sleeps : List Nat
  recorded : List GoError
deriving Repr

/-- The `lastError` set at the top of every iteration (ebs.go line 77). -/
def maxExceededErr : GoError := GoError.new "Max attempts exceeded"

/-- Prefixes one iteration's trace onto the outcome of the remaining
iterations (`continue` in the Go loop). -/
def stepCont (calls0 : List Nat) (recs0 : List GoError) (slp : List Nat)
    (d0 : Nat) (rest : LoopOut) : LoopOut :=
  { succeeded := rest.succeeded
    lastError := rest.lastError
    attachCalls := calls0 ++ rest.attachCalls
    attempts := rest.attempts + 1
    describes := d0 + rest.describes
    sleeps := slp ++ rest.sleeps
    recorded := recs0 ++ rest.recorded }

/-- The confirmation-poll part of one iteration (ebs.go lines 95-121),
reached once the attach request has been issued: returns the error
recorded by this poll, if any, and whether the attempt succeeded
(provider state `attached` and `os.Stat` succeeding). -/
def pollStep (env : AttachEnv) (i : Nat) : Option GoError × Bool :=
  match env.describeResult i with
  | .error e => (some e, false)
  | .ok vols =>
    match vols with
    | [] => (none, false)
    | v :: _ =>
      match v.attachments with
      | [] => (none, false)
      | a :: _ =>
        if a.state = volumeAttachmentStateAttached then
          match env.statResult i with
          | some e => (some e, false)
          | none => (none, true)
        else (none, false)

/-- The retry loop of `attachVolume` (ebs.go lines 76-122), recursing on
the remaining fuel `maxAttempts - i`.  Arguments: remaining iterations,
current attempt number `i`, the `attachStarted` flag, and the current
`lastError`.  Each iteration first sets `lastError` to
`maxExceededErr`, sleeps `backoffDuration (i-1)` when `i ≠ 0`, issues the
attach request while `attachStarted` is false, then polls. -/
def attachLoop (env : AttachEnv) : Nat → Nat → Bool → Option GoError → LoopOut
  | 0, _, _, le =>
    { succeeded := false, lastError := le, attachCalls := [], attempts := 0,
      describes := 0, sleeps := [], recorded := [] }
  | fuel + 1, i, started, _ =>
    let slp : List Nat := if i = 0 then [] else [backoffDuration (i - 1)]
    let atRes : Option GoError := if started then none else env.attachResult i
    let calls0 : List Nat := if started then [] else [i]
    match atRes with
    | some e =>
      stepCont calls0 [maxExceededErr, e] slp 0
        (attachLoop env fuel (i + 1) false (some e))
    | none =>
      match pollStep env i with
      | (_, true) =>
        { succeeded := true, lastError := some maxExceededErr,
          attachCalls := calls0, attempts := 1, describes := 1,
          sleeps := slp, recorded := [maxExceededErr] }
      | (extra, false) =>
        stepCont calls0 (maxExceededErr :: extra.toList) slp 1
          (attachLoop env fuel (i + 1) true (some (extra.getD maxExceededErr)))

/-- Result of a whole `attachVolume` run: the returned Go error (`none` =
nil = success) plus the trace fields of `LoopOut`. -/
structure RunResult where
  err : Option GoError
  succeeded : Bool
  attachCalls : List Nat
  attempts : Nat
  describes : Nat
  sleeps : List Nat
  recorded : List GoError
deriving Repr

/-- The already-attached check of ebs.go line 53:
`len(volume.Attachments) > 0 && *volume.Attachments[0].InstanceId == instanceID`. -/
def alreadyAttached (instanceID : String) (volume : Volume) : Bool :=
  match volume.attachments with
  | a :: _ => a.instanceId = instanceID
  | [] => false

/-- Runs the loop and applies the final wrap of ebs.go lines 124-126:
`errors.Wrap(lastError, "Attaching volume failed")` when the loop did not
succeed (which is nil when `lastError` is nil). -/
def attachRun (env : AttachEnv) (maxAttempts : Int) : RunResult :=
  let out := attachLoop env maxAttempts.toNat 0 false none
  { err := if out.succeeded then none
           else wrapOpt "Attaching volume failed" out.lastError
    succeeded := out.succeeded
    attachCalls := out.attachCalls
    attempts := out.attempts
    describes := out.describes
    sleeps := out.sleeps
    recorded := out.recorded }

/-- ebs.go lines 49-132, `attachVolume`: the already-attached short-circuit
returns nil immediately with no provider calls; otherwise the retry loop
runs for at most `maxAttempts` iterations (the Go loop
`for attempts := 0; attempts < maxAttempts; attempts++` executes
`max maxAttempts 0` times). -/
def attachVolume (env : AttachEnv) (instanceID : String) (volume : Volume)
    (maxAttempts : Int) : RunResult :=
  if alreadyAttached instanceID volume then
    { err := none, succeeded := true, attachCalls := [], attempts := 0,
      describes := 0, sleeps := [], recorded := [] }
  else
    attachRun env maxAttempts

/-- Environment of `ensureVolumeInited`: exit status of the
`sudo /usr/sbin/blkid <device>` probe (`true` = exit 0, filesystem
present) and the outcome of `sudo /usr/sbin/mkfs.<type> <device>` if it
is invoked (`none` = success). -/
structure InitEnv where
  blkidOk : Bool
  mkfsResult : Option GoError
deriving Repr

/-- ebs.go lines 134-152, `ensureVolumeInited`: returns the Go error and
the number of `mkfs` invocations performed.  A successful probe is an
idempotent no-op; a probe failure triggers one format, whose failure is
wrapped as `mkfs.<fsType> failed`. -/
def ensureVolumeInited (env : InitEnv) (blockDevice fileSystemFormatType : String) :
    Option GoError × Nat :=
  if env.blkidOk then (none, 0)
  else
    match env.mkfsResult with
    | some e =>
      (some (GoError.wrap ("mkfs." ++ fileSystemFormatType ++ " failed") e), 1)
    | none => (none, 1)

/-- Go `strings.Contains(s, substr)`. -/
def goContains (s substr : String) : Bool :=
  decide (List.IsInfix substr.toList s.toList)

/-- Environment of `ensureVolumeMounted`: outcome of
`sudo mkdir -p <mountPoint>`, outcome of the direct
`sudo mount <device> <mountPoint>` (`none` = success), and the result of
reading the live mount table with `mount` (its stdout, or an error). -/
structure MountEnv where
  mkdirResult : Option GoError
  mountResult : Option GoError
  mountTable : Except GoError String
deriving Repr

/-- ebs.go lines 154-184, `ensureVolumeMounted`: returns the Go error and
the number of direct `mount <device> <mountPoint>` invocations.  Note the
final line of the Go function wraps the error variable of the
mount-table read, which is necessarily nil on that path, and
`errors.Wrap(nil, msg)` is nil: this is modelled faithfully via
`wrapOpt _ none`. -/
def ensureVolumeMounted (env : MountEnv) (blockDevice mountPoint : String) :
    Option GoError × Nat :=
  match env.mkdirResult with
  | some e => (some (GoError.wrap "mountpoint creation failed" e), 0)
  | none =>
    match env.mountResult with
    | none => (none, 1)
    | some _ =>
      match env.mountTable with
      | .error e =>
        (some (GoError.wrap "cannot mount or verify mount. cowardly refusing to continue" e), 1)
      | .ok out =>
        if goContains out (blockDevice ++ " on " ++ mountPoint) then
          (none, 1)
        else
          (wrapOpt "cannot mount or verify mount. cowardly refusing to continue" none, 1)

/-- Environment for the C2 witness: the attach call fails once on attempt
0 and is accepted on attempt 1; confirmation succeeds immediately. -/
def reissueWitnessEnv : AttachEnv :=
  ⟨fun j => if j = 0 then some (.provider "afail") else none,
   fun _ => .ok [⟨"vol-1", [⟨"i-1", "/dev/xvdf", "attached"⟩]⟩],
   fun _ => none⟩

/-- Environment for the C4 and C5 witnesses: the attach call is always
accepted but every confirmation poll fails with a provider error. -/
def pollFailEnv : AttachEnv :=
  ⟨fun _ => none, fun _ => .error (.provider "poll boom"), fun _ => none⟩

/-! Helper lemmas about the retry loop. -/

/-- Once `attachStarted` is set, no further attach request is ever issued:
the loop never resets the flag. -/
theorem attachLoop_attachCalls_nil_of_started (env : AttachEnv) :
    ∀ (fuel i : Nat) (le : Option GoError),
      (attachLoop env fuel i true le).attachCalls = [] := by
  intro fuel
  induction fuel with
  | zero => intro i le; simp [attachLoop]
  | succ n ih =>
    intro i le
    cases hp : pollStep env i with
    | mk extra b =>
      cases b with
      | true => simp [attachLoop, hp]
      | false => simp [attachLoop, hp, stepCont, ih]

/-- Every attempt number in the attach-call trace is at least the starting
attempt number. -/
theorem attachLoop_attachCalls_lower_bound (env : AttachEnv) :
    ∀ (fuel i : Nat) (started : Bool) (le : Option GoError),
      ∀ j ∈ (attachLoop env fuel i started le).attachCalls, i ≤ j := by
  intro fuel
  induction fuel with
  | zero => intro i started le j hj; simp [attachLoop] at hj
  | succ n ih =>
    intro i started le j hj
    cases started with
    | true =>
      rw [attachLoop_attachCalls_nil_of_started] at hj
      simp at hj
    | false =>
      cases h : env.attachResult i with
      | some e =>
        simp [attachLoop, h, stepCont] at hj
        rcases hj with hj | hj
        · omega
        · have := ih (i + 1) false (some e) j hj
          omega
      | none =>
        cases hp : pollStep env i with
        | mk extra b =>
          cases b with
          | true => simp [attachLoop, h, hp] at hj; omega
          | false =>
            simp [attachLoop, h, hp, stepCont,
              attachLoop_attachCalls_nil_of_started] at hj
            omega

/-- When the loop starts with the flag cleared and at least one iteration
of fuel, the very first attempt issues the attach request. -/
theorem attachLoop_attachCalls_head (env : AttachEnv) (fuel i : Nat)
    (le : Option GoError) :
    ((attachLoop env (fuel + 1) i false le).attachCalls).head? = some i := by
  cases h : env.attachResult i with
  | some e => simp [attachLoop, h, stepCont]
  | none =>
    cases hp : pollStep env i with
    | mk extra b =>
      cases b with
      | true => simp [attachLoop, h, hp]
      | false => simp [attachLoop, h, hp, stepCont]

/-! Claim theorems. -/

/-- Claim C6: `volumeFromID` turns a successful describe call with an empty
result list into the NotFound error `cannot find volume with
volume-id: <id>` — which is not a provider error — returns the first
volume of a non-empty result, and passes a provider error through
unmodified. -/
theorem volumeFromID_notfound_and_first (volumeID : String) (v : Volume)
    (rest : List Volume) (e : GoError) :
    volumeFromID (.ok []) volumeID =
      .error (GoError.new ("cannot find volume with volume-id: " ++ volumeID))
    ∧ (GoError.new ("cannot find volume with volume-id: " ++ volumeID)).isProvider = false
    ∧ volumeFromID (.ok (v :: rest)) volumeID = .ok v
    ∧ volumeFromID (.error e) volumeID = .error e :=
  ⟨rfl, rfl, rfl, rfl⟩

/-- Claim C7: `ensureVolumeInited` is idempotent: when the blkid probe succeeds
(a filesystem signature is present, as after a first formatting run) it
returns success with zero mkfs invocations — so a second invocation
against an already-formatted device performs zero format invocations —
and only a failed probe triggers the single mkfs invocation, whose
failure is wrapped with the tool name `mkfs.<fsType>`. -/
theorem ensureVolumeInited_idempotent (mk : Option GoError)
    (blockDevice fileSystemFormatType : String) (e : GoError) :
    ensureVolumeInited ⟨true, mk⟩ blockDevice fileSystemFormatType = (none, 0)
    ∧ (ensureVolumeInited ⟨true, mk⟩ blockDevice fileSystemFormatType).2
      + (ensureVolumeInited ⟨true, mk⟩ blockDevice fileSystemFormatType).2 = 0
    ∧ ensureVolumeInited ⟨false, some e⟩ blockDevice fileSystemFormatType =
      (some (GoError.wrap ("mkfs." ++ fileSystemFormatType ++ " failed") e), 1)
    ∧ ensureVolumeInited ⟨false, none⟩ blockDevice fileSystemFormatType = (none, 1) :=
  ⟨rfl, rfl, rfl, rfl⟩

/-- Claim C8: when the direct mount fails but the mount-table read succeeds and
its output contains `<device> on <mountPoint>`, `ensureVolumeMounted`
returns success having invoked the mount command exactly once. -/
theorem ensureVolumeMounted_already_mounted (e : GoError) (tbl dev mp : String)
    (h : goContains tbl (dev ++ " on " ++ mp) = true) :
    ensureVolumeMounted ⟨none, some e, .ok tbl⟩ dev mp = (none, 1) := by
  simp [ensureVolumeMounted, h]

/-- Witness for C8 at a concrete mount table containing the entry. -/
theorem ensureVolumeMounted_already_mounted_witness :
    goContains "/dev/d on /data type ext4" ("/dev/d" ++ " on " ++ "/data") = true
    ∧ ensureVolumeMounted ⟨none, some (GoError.new "busy"),
        .ok "/dev/d on /data type ext4"⟩ "/dev/d" "/data" = (none, 1) :=
  ⟨by decide,
   ensureVolumeMounted_already_mounted (GoError.new "busy")
     "/dev/d on /data type ext4" "/dev/d" "/data" (by decide)⟩

/-- Claim C1 (counter-evidence): when the direct mount fails, the mount-table
read succeeds, and the table contains no matching entry, the Go function
returns nil — success — because line 183 wraps the (necessarily nil)
error of the mount-table read, and `errors.Wrap(nil, msg)` is nil.  The
claim says a "cannot mount or verify" failure must be returned. -/
theorem ensureVolumeMounted_no_entry_silent_success :
    ensureVolumeMounted
      ⟨none, some (GoError.new "mount failed"), .ok "tmpfs on /run"⟩
      "/dev/xvdf" "/data" = (none, 1) := by
  decide

/-- Claim C3: if the volume's current (first) attachment names the requesting
instance, `attachVolume` returns success immediately: no attach request,
no confirmation poll, no iteration, no sleep. -/
theorem attachVolume_already_attached (env : AttachEnv) (instanceID : String)
    (volume : Volume) (maxAttempts : Int) (a : Attachment)
    (hhead : volume.attachments.head? = some a)
    (hown : a.instanceId = instanceID) :
    (attachVolume env instanceID volume maxAttempts).err = none
    ∧ (attachVolume env instanceID volume maxAttempts).attachCalls = []
    ∧ (attachVolume env instanceID volume maxAttempts).describes = 0
    ∧ (attachVolume env instanceID volume maxAttempts).attempts = 0
    ∧ (attachVolume env instanceID volume maxAttempts).sleeps = [] := by
  have hAtt : alreadyAttached instanceID volume = true := by
    cases hv : volume.attachments with
    | nil => rw [hv] at hhead; simp at hhead
    | cons b t =>
      rw [hv] at hhead
      simp at hhead
      subst hhead
      simp [alreadyAttached, hv, hown]
  simp [attachVolume, hAtt]

/-- Witness for C3 at a concrete already-attached volume. -/
theorem attachVolume_already_attached_witness :
    (Volume.mk "vol-1" [⟨"i-1", "/dev/xvdf", "attached"⟩]).attachments.head? =
      some ⟨"i-1", "/dev/xvdf", "attached"⟩
    ∧ (Attachment.mk "i-1" "/dev/xvdf" "attached").instanceId = "i-1"
    ∧ (attachVolume ⟨fun _ => none, fun _ => .ok [], fun _ => none⟩ "i-1"
        ⟨"vol-1", [⟨"i-1", "/dev/xvdf", "attached"⟩]⟩ 7).err = none := by
  refine ⟨rfl, rfl, ?_⟩
  exact (attachVolume_already_attached ⟨fun _ => none, fun _ => .ok [], fun _ => none⟩
    "i-1" ⟨"vol-1", [⟨"i-1", "/dev/xvdf", "attached"⟩]⟩ 7
    ⟨"i-1", "/dev/xvdf", "attached"⟩ rfl rfl).1

/-- Claim C9: with a non-positive retry budget and a volume not already attached
to this instance, the loop body never runs, `lastError` stays nil, and
the final `errors.Wrap(nil, "Attaching volume failed")` is nil: the
function returns success with zero attach requests, zero polls and zero
sleeps. -/
theorem attachVolume_nonpositive_budget (env : AttachEnv) (instanceID : String)
    (volume : Volume) (maxAttempts : Int) (hm : maxAttempts ≤ 0)
    (hAtt : alreadyAttached instanceID volume = false) :
    attachVolume env instanceID volume maxAttempts =
      { err := none, succeeded := false, attachCalls := [], attempts := 0,
        describes := 0, sleeps := [], recorded := [] } := by
  have ht : maxAttempts.toNat = 0 := by omega
  simp [attachVolume, hAtt, attachRun, ht, attachLoop, wrapOpt]

/-- Witness for C9 at budget `-3` and a detached volume. -/
theorem attachVolume_nonpositive_budget_witness :
    (-3 : Int) ≤ 0
    ∧ alreadyAttached "i-1" ⟨"vol-1", []⟩ = false
    ∧ attachVolume ⟨fun _ => none, fun _ => .error (.provider "boom"), fun _ => none⟩
        "i-1" ⟨"vol-1", []⟩ (-3) =
      { err := none, succeeded := false, attachCalls := [], attempts := 0,
        describes := 0, sleeps := [], recorded := [] } :=
  ⟨by decide, rfl,
   attachVolume_nonpositive_budget
     ⟨fun _ => none, fun _ => .error (.provider "boom"), fun _ => none⟩
     "i-1" ⟨"vol-1", []⟩ (-3) (by decide) rfl⟩

/-- Claim C10: the already-attached short-circuit looks only at the first
attachment: if the attachment list is non-empty and its first element
names a different instance, then (for a positive budget) the very first
attempt issues a fresh attach request, regardless of what the later
attachments of the list say. -/
theorem attachVolume_checks_first_attachment_only (env : AttachEnv)
    (instanceID volId : String) (a : Attachment) (rest : List Attachment)
    (maxAttempts : Int) (ha : a.instanceId ≠ instanceID)
    (hm : 1 ≤ maxAttempts) :
    ((attachVolume env instanceID ⟨volId, a :: rest⟩ maxAttempts).attachCalls).head? =
      some 0 := by
  have hAtt : alreadyAttached instanceID ⟨volId, a :: rest⟩ = false := by
    simp only [alreadyAttached]
    exact decide_eq_false ha
  have ht : maxAttempts.toNat = (maxAttempts.toNat - 1) + 1 := by omega
  simp only [attachVolume, attachRun, hAtt, Bool.false_eq_true, if_false]
  rw [ht]
  exact attachLoop_attachCalls_head env (maxAttempts.toNat - 1) 0 none

/-- Witness for C10: the second attachment names the requesting instance,
yet an attach request is still issued on attempt 0. -/
theorem attachVolume_checks_first_attachment_only_witness :
    (Attachment.mk "i-2" "/dev/xvdf" "attached").instanceId ≠ "i-1"
    ∧ (1 : Int) ≤ 2
    ∧ ((attachVolume ⟨fun _ => none, fun _ => .error (.provider "boom"), fun _ => none⟩
        "i-1" ⟨"vol-1", [⟨"i-2", "/dev/xvdf", "attached"⟩,
                         ⟨"i-1", "/dev/xvdf", "attached"⟩]⟩ 2).attachCalls).head? =
      some 0 :=
  ⟨by decide, by decide,
   attachVolume_checks_first_attachment_only
     ⟨fun _ => none, fun _ => .error (.provider "boom"), fun _ => none⟩
     "i-1" "vol-1" ⟨"i-2", "/dev/xvdf", "attached"⟩
     [⟨"i-1", "/dev/xvdf", "attached"⟩] 2 (by decide) (by decide)⟩

/-- Starting with the flag cleared, the attempt numbers that issue an
attach request are strictly increasing, and any attach call that is
followed by a later attach call must have failed. -/
theorem attachLoop_reissue_only_after_failure (env : AttachEnv) :
    ∀ (fuel i : Nat) (le : Option GoError),
      List.Chain' (· < ·) (attachLoop env fuel i false le).attachCalls
      ∧ ∀ a ∈ (attachLoop env fuel i false le).attachCalls,
          ∀ b ∈ (attachLoop env fuel i false le).attachCalls,
            a < b → (env.attachResult a).isSome := by
  intro fuel
  induction fuel with
  | zero =>
    intro i le
    refine ⟨by simp [attachLoop], ?_⟩
    intro a ha
    simp [attachLoop] at ha
  | succ n ih =>
    intro i le
    cases h : env.attachResult i with
    | some e =>
      have hrest := ih (i + 1) (some e)
      have hlb := attachLoop_attachCalls_lower_bound env n (i + 1) false (some e)
      constructor
      · simp only [attachLoop, h]
        simp [stepCont]
        refine List.chain'_cons'.mpr ⟨?_, hrest.1⟩
        intro y hy
        have := hlb y (List.mem_of_mem_head? hy)
        omega
      · intro a ha b hb hab
        simp only [attachLoop, h] at ha hb
        simp [stepCont] at ha hb
        rcases ha with rfl | ha
        · rw [h]; rfl
        · rcases hb with rfl | hb
          · have := hlb a ha; omega
          · exact hrest.2 a ha b hb hab
    | none =>
      cases hp : pollStep env i with
      | mk ex bb =>
        cases bb with
        | true =>
          refine ⟨by simp [attachLoop, h, hp], ?_⟩
          intro a ha b hb hab
          simp [attachLoop, h, hp] at ha hb
          omega
        | false =>
          refine ⟨by simp [attachLoop, h, hp, stepCont,
            attachLoop_attachCalls_nil_of_started], ?_⟩
          intro a ha b hb hab
          simp [attachLoop, h, hp, stepCont,
            attachLoop_attachCalls_nil_of_started] at ha hb
          omega

/-- Claim C2: across one `attachVolume` run the attach request is issued by a
strictly increasing sequence of attempts, and an attach call with a later
attach call after it must have failed — so once an attach call returns
without error, no later attempt issues another one, and at most one
issued attach request succeeds. -/
theorem attachVolume_attach_at_most_once (env : AttachEnv)
    (instanceID : String) (volume : Volume) (maxAttempts : Int) :
    List.Chain' (· < ·)
      (attachVolume env instanceID volume maxAttempts).attachCalls
    ∧ ∀ a ∈ (attachVolume env instanceID volume maxAttempts).attachCalls,
        ∀ b ∈ (attachVolume env instanceID volume maxAttempts).attachCalls,
          a < b → (env.attachResult a).isSome := by
  cases hAtt : alreadyAttached instanceID volume with
  | true =>
    refine ⟨by simp [attachVolume, hAtt], ?_⟩
    intro a ha
    simp [attachVolume, hAtt] at ha
  | false =>
    simp only [attachVolume, hAtt, Bool.false_eq_true, if_false, attachRun]
    exact attachLoop_reissue_only_after_failure env maxAttempts.toNat 0 none

/-- Witness for C2: attempts 0 and 1 both issue the attach request, and
the theorem yields that the earlier call (attempt 0) failed. -/
theorem attachVolume_attach_at_most_once_witness :
    0 ∈ (attachVolume reissueWitnessEnv "i-1" ⟨"vol-1", []⟩ 5).attachCalls
    ∧ 1 ∈ (attachVolume reissueWitnessEnv "i-1" ⟨"vol-1", []⟩ 5).attachCalls
    ∧ (reissueWitnessEnv.attachResult 0).isSome := by
  refine ⟨by decide, by decide, ?_⟩
  exact (attachVolume_attach_at_most_once reissueWitnessEnv "i-1"
    ⟨"vol-1", []⟩ 5).2 0 (by decide) 1 (by decide) (by decide)

/-- The last element of `a :: l` is the last element of `l` when `l` is
non-empty, and `a` otherwise. -/
theorem getLast?_cons_or {α : Type} (a : α) (l : List α) :
    (a :: l).getLast? = (l.getLast?).or (some a) := by
  induction l generalizing a with
  | nil => rfl
  | cons b t ihl =>
    rw [List.getLast?_cons_cons, ihl b, Option.or_assoc]
    rfl

/-- The final `lastError` of the loop is the last value it recorded, or
the initial value when it recorded nothing. -/
theorem attachLoop_lastError_eq_recorded (env : AttachEnv) :
    ∀ (fuel i : Nat) (started : Bool) (le : Option GoError),
      (attachLoop env fuel i started le).lastError =
        ((attachLoop env fuel i started le).recorded.getLast?).or le := by
  intro fuel
  induction fuel with
  | zero => intro i st le; simp [attachLoop]
  | succ n ih =>
    intro i st le
    cases st with
    | true =>
      cases hp : pollStep env i with
      | mk ex bb =>
        cases bb with
        | true => simp [attachLoop, hp]
        | false =>
          cases ex with
          | none =>
            have hr := ih (i + 1) true (some maxExceededErr)
            simp [attachLoop, hp, stepCont, getLast?_cons_or, Option.or_assoc, hr]
          | some e2 =>
            have hr := ih (i + 1) true (some e2)
            simp [attachLoop, hp, stepCont, getLast?_cons_or, Option.or_assoc, hr]
    | false =>
      cases h : env.attachResult i with
      | some e =>
        have hr := ih (i + 1) false (some e)
        simp [attachLoop, h, stepCont, getLast?_cons_or, Option.or_assoc, hr]
      | none =>
        cases hp : pollStep env i with
        | mk ex bb =>
          cases bb with
          | true => simp [attachLoop, h, hp]
          | false =>
            cases ex with
            | none =>
              have hr := ih (i + 1) true (some maxExceededErr)
              simp [attachLoop, h, hp, stepCont, getLast?_cons_or, Option.or_assoc, hr]
            | some e2 =>
              have hr := ih (i + 1) true (some e2)
              simp [attachLoop, h, hp, stepCont, getLast?_cons_or, Option.or_assoc, hr]

/-- Claim C4: whenever `attachVolume` returns a non-nil error, that error is
exactly the last value recorded into `lastError` during the attempts,
wrapped in the `Attaching volume failed` context. -/
theorem attachVolume_failure_wraps_last_error (env : AttachEnv)
    (instanceID : String) (volume : Volume) (maxAttempts : Int)
    (h : (attachVolume env instanceID volume maxAttempts).err.isSome) :
    ∃ e, (attachVolume env instanceID volume maxAttempts).recorded.getLast? = some e
      ∧ (attachVolume env instanceID volume maxAttempts).err =
          some (GoError.wrap "Attaching volume failed" e) := by
  cases hAtt : alreadyAttached instanceID volume with
  | true => simp [attachVolume, hAtt] at h
  | false =>
    simp only [attachVolume, hAtt, Bool.false_eq_true, if_false, attachRun] at h ⊢
    cases hs : (attachLoop env maxAttempts.toNat 0 false none).succeeded with
    | true => simp [hs] at h
    | false =>
      have hle := attachLoop_lastError_eq_recorded env maxAttempts.toNat 0 false none
      rw [Option.or_none] at hle
      simp only [hs, Bool.false_eq_true, if_false, wrapOpt] at h ⊢
      cases he : (attachLoop env maxAttempts.toNat 0 false none).lastError with
      | none => rw [he] at h; simp at h
      | some e =>
        refine ⟨e, ?_, ?_⟩
        · rw [← hle, he]
        · rfl

/-- Witness for C4: with every poll failing and a budget of 2, the run
fails and returns the last recorded error wrapped in the
`Attaching volume failed` context. -/
theorem attachVolume_failure_wraps_last_error_witness :
    (attachVolume pollFailEnv "i-1" ⟨"vol-1", []⟩ 2).err.isSome
    ∧ ∃ e, (attachVolume pollFailEnv "i-1" ⟨"vol-1", []⟩ 2).recorded.getLast? = some e
      ∧ (attachVolume pollFailEnv "i-1" ⟨"vol-1", []⟩ 2).err =
          some (GoError.wrap "Attaching volume failed" e) := by
  refine ⟨by decide, ?_⟩
  exact attachVolume_failure_wraps_last_error pollFailEnv "i-1"
    ⟨"vol-1", []⟩ 2 (by decide)

/-- A loop started with a non-nil `lastError` ends with a non-nil
`lastError`: no branch ever clears it. -/
theorem attachLoop_lastError_isSome_of_some (env : AttachEnv) :
    ∀ (fuel i : Nat) (started : Bool) (e : GoError),
      (attachLoop env fuel i started (some e)).lastError.isSome := by
  intro fuel
  induction fuel with
  | zero => intro i st e; simp [attachLoop]
  | succ n ih =>
    intro i st e
    cases st with
    | true =>
      cases hp : pollStep env i with
      | mk ex bb =>
        cases bb with
        | true => simp [attachLoop, hp]
        | false =>
          simpa [attachLoop, hp, stepCont] using
            ih (i + 1) true (ex.getD maxExceededErr)
    | false =>
      cases h : env.attachResult i with
      | some e2 =>
        simpa [attachLoop, h, stepCont] using ih (i + 1) false e2
      | none =>
        cases hp : pollStep env i with
        | mk ex bb =>
          cases bb with
          | true => simp [attachLoop, h, hp]
          | false =>
            simpa [attachLoop, h, hp, stepCont] using
              ih (i + 1) true (ex.getD maxExceededErr)

/-- After at least one iteration the loop's `lastError` is non-nil: every
iteration assigns it before doing anything else. -/
theorem attachLoop_lastError_isSome (env : AttachEnv) (fuel i : Nat)
    (started : Bool) (le : Option GoError) (h1 : 1 ≤ fuel) :
    (attachLoop env fuel i started le).lastError.isSome := by
  obtain ⟨n, rfl⟩ : ∃ n, fuel = n + 1 := ⟨fuel - 1, by omega⟩
  cases started with
  | true =>
    cases hp : pollStep env i with
    | mk ex bb =>
      cases bb with
      | true => simp [attachLoop, hp]
      | false =>
        simpa [attachLoop, hp, stepCont] using
          attachLoop_lastError_isSome_of_some env n (i + 1) true
            (ex.getD maxExceededErr)
  | false =>
    cases h : env.attachResult i with
    | some e =>
      simpa [attachLoop, h, stepCont] using
        attachLoop_lastError_isSome_of_some env n (i + 1) false e
    | none =>
      cases hp : pollStep env i with
      | mk ex bb =>
        cases bb with
        | true => simp [attachLoop, h, hp]
        | false =>
          simpa [attachLoop, h, hp, stepCont] using
            attachLoop_lastError_isSome_of_some env n (i + 1) true
              (ex.getD maxExceededErr)

/-- When every confirmation poll fails and the attach call is always
accepted, a loop started at attempt `i ≥ 1` runs through all its fuel,
never succeeds, and sleeps exactly the consecutive backoff durations
starting at index `i - 1`. -/
theorem attachLoop_poll_always_fails (env : AttachEnv)
    (HA : ∀ j, env.attachResult j = none)
    (HP : ∀ j, (pollStep env j).2 = false) :
    ∀ (fuel i : Nat) (started : Bool) (le : Option GoError), 1 ≤ i →
      (attachLoop env fuel i started le).succeeded = false
      ∧ (attachLoop env fuel i started le).attempts = fuel
      ∧ (attachLoop env fuel i started le).sleeps =
          (List.range' (i - 1) fuel).map backoffDuration := by
  intro fuel
  induction fuel with
  | zero => intro i st le hi; simp [attachLoop]
  | succ n ih =>
    intro i st le hi
    cases hp : pollStep env i with
    | mk ex bb =>
      have hbb : bb = false := by
        have := HP i
        rw [hp] at this
        exact this
      subst hbb
      have hne : ¬ i = 0 := by omega
      have hrange : List.range' (i - 1) (n + 1) = (i - 1) :: List.range' i n := by
        have h2 : (i - 1) + 1 = i := by omega
        rw [List.range'_succ, h2]
      have hrest := ih (i + 1) true (some (ex.getD maxExceededErr)) (by omega)
      cases st with
      | true =>
        refine ⟨?_, ?_, ?_⟩ <;>
          simp [attachLoop, hp, stepCont, hne, hrange,
            hrest.1, hrest.2.1, hrest.2.2]
      | false =>
        refine ⟨?_, ?_, ?_⟩ <;>
          simp [attachLoop, HA i, hp, stepCont, hne, hrange,
            hrest.1, hrest.2.1, hrest.2.2]

/-- Claim C5: with a budget of `N ≥ 1`, an always-accepted attach call, every
confirmation poll failing, and a volume not already attached to this
instance, `attachVolume` performs exactly `N` attempts, returns a
failure, and its sleeps are exactly the first `N - 1` backoff durations
`min (5 * 2^k) 100` seconds (k = 0, ..., N-2), so the total sleep is
their sum; in particular no sleep precedes the first attempt. -/
theorem attachVolume_exhausts_budget_with_backoff (env : AttachEnv)
    (instanceID : String) (volume : Volume) (N : Nat)
    (HA : ∀ j, env.attachResult j = none)
    (HP : ∀ j, (pollStep env j).2 = false)
    (hAtt : alreadyAttached instanceID volume = false)
    (hN : 1 ≤ N) :
    (attachVolume env instanceID volume (N : Int)).attempts = N
    ∧ (attachVolume env instanceID volume (N : Int)).err.isSome
    ∧ (attachVolume env instanceID volume (N : Int)).sleeps =
        (List.range (N - 1)).map backoffDuration
    ∧ (attachVolume env instanceID volume (N : Int)).sleeps.sum =
        ((List.range (N - 1)).map backoffDuration).sum := by
  obtain ⟨n, rfl⟩ : ∃ n, N = n + 1 := ⟨N - 1, by omega⟩
  cases hp : pollStep env 0 with
  | mk ex bb =>
    have hbb : bb = false := by
      have := HP 0
      rw [hp] at this
      exact this
    subst hbb
    have hrest := attachLoop_poll_always_fails env HA HP n 1 true
      (some (ex.getD maxExceededErr)) (by omega)
    obtain ⟨e0, he0⟩ := Option.isSome_iff_exists.mp
      (attachLoop_lastError_isSome_of_some env n 1 true (ex.getD maxExceededErr))
    refine ⟨?_, ?_, ?_, ?_⟩ <;>
      simp [attachVolume, hAtt, attachRun, Int.toNat_natCast, attachLoop,
        HA 0, hp, stepCont, wrapOpt, he0, List.range_eq_range',
        hrest.1, hrest.2.1, hrest.2.2]

/-- Witness for C5 at budget 3: three attempts, failure, sleeps 5 s then
10 s. -/
theorem attachVolume_exhausts_budget_with_backoff_witness :
    (attachVolume pollFailEnv "i-1" ⟨"vol-1", []⟩ ((3 : Nat) : Int)).attempts = 3
    ∧ (attachVolume pollFailEnv "i-1" ⟨"vol-1", []⟩ ((3 : Nat) : Int)).err.isSome
    ∧ (attachVolume pollFailEnv "i-1" ⟨"vol-1", []⟩ ((3 : Nat) : Int)).sleeps =
        (List.range 2).map backoffDuration := by
  have h := attachVolume_exhausts_budget_with_backoff pollFailEnv "i-1"
    ⟨"vol-1", []⟩ 3 (fun j => rfl) (fun j => rfl) rfl (by decide)
  exact ⟨h.1, h.2.1, h.2.2.1⟩

end EbsBootstrap
